import Mathlib

/-!
A shallow embedding of the Tubely video-upload pipeline
(`handler_upload_video.go`) and proofs about it.

The Go handler `handlerUploadVideo` validates the request, stages the
inbound bytes into a temporary file, remuxes the file for fast start
with an external tool (`processVideoForFastStart`), probes its geometry
and classifies the aspect ratio with another external tool
(`getVideoAspectRatio`), derives a storage key, uploads the remuxed
bytes to the object store and finally records the object URL on the
video record.

External effects (the database, the multipart form reader, the two
media tools, the entropy source, the object store) are modelled by an
environment `Env` of oracle outcomes; the handler itself is translated
statement by statement from the Go source.  The observable behaviour of
one run is collected in a `RunResult`: the HTTP status written, the
event trace, the set of files that remain under the temporary-storage
root once the run (including its deferred cleanups) completes, the
final state of the video record, and the storage key of a successful
upload.  Go `float64` arithmetic in the aspect classifier is modelled
with exact rationals (`ℚ`); division by zero, which in Go produces an
infinite or NaN ratio falling through to the `other` branch, produces
`0` in `ℚ` and falls through to the same branch.
-/

namespace Tubely

/-- The video record, as far as this pipeline observes it: the owning
user id and the optional video URL (`database.Video`). -/
structure Video where
  userID : Nat
  videoURL : Option String
  deriving Repr, DecidableEq

/-- Classification tail of the Go `getVideoAspectRatio`: `ratio :=
float64(width)/float64(height)` compared against `16.0/9.0` and
`9.0/16.0` with tolerance `0.01`, first match wins.  Floating point is
modelled with exact rationals. -/
def classifyRatio (width height : Int) : String :=
  let ratio : ℚ := (width : ℚ) / (height : ℚ)
  let horizontal : ℚ := 16 / 9
  let vertical : ℚ := 9 / 16
  if |ratio - horizontal| ≤ 1 / 100 then "16:9"
  else if |ratio - vertical| ≤ 1 / 100 then "9:16"
  else "other"

/-- The bucket name the handler's `switch ratio` attaches to the
storage key: `"16:9" ↦ landscape`, `"9:16" ↦ portrait`, default
`other`. -/
def aspectBucket (width height : Int) : String :=
  match classifyRatio width height with
  | "16:9" => "landscape"
  | "9:16" => "portrait"
  | _ => "other"

/-- Oracle outcomes of one `ffprobe` invocation: whether `cmd.Run`
succeeded, whether its stdout parsed as JSON, and the parsed list of
`(width, height)` stream entries. -/
structure ProbeEnv where
  runOk : Bool
  runErr : String
  parseOk : Bool
  parseErr : String
  streams : List (Int × Int)
  deriving Repr, DecidableEq

/-- `getVideoAspectRatio` from the Go source: run `ffprobe` on
`filePath`, parse its JSON output, fail when no stream was parsed, and
otherwise classify the first stream's width and height. -/
def getVideoAspectRatio (filePath : String) (probe : ProbeEnv) : Except String String :=
  if probe.runOk = false then
    Except.error ("ffprobe error: " ++ probe.runErr)
  else if probe.parseOk = false then
    Except.error ("could not parse ffprobe output: " ++ probe.parseErr)
  else
    match probe.streams with
    | [] => Except.error "Parsed video stream is empty"
    | (width, height) :: _ => Except.ok (classifyRatio width height)

/-- Oracle outcomes of one `ffmpeg` remux invocation: whether `cmd.Run`
returned nil, the text of the error it returned otherwise, what the
tool wrote to its error stream, whether an output file exists on disk
after the run (the tool may leave a partial file even when it fails),
and that file's size. -/
structure RemuxEnv where
  runOk : Bool
  runErr : String
  stderr : String
  outputCreated : Bool
  outputSize : Nat
  deriving Repr, DecidableEq

/-- `processVideoForFastStart` from the Go source: output path is the
input path plus `".processing"`; a `cmd.Run` error is wrapped together
with the captured stderr; then the output file is stat'ed and must be
non-empty.  Note that only the `cmd.Run` branch embeds the captured
stderr in its error, and that no branch removes the output file. -/
def processVideoForFastStart (inputPath : String) (remux : RemuxEnv) : Except String String :=
  let outputPath := inputPath ++ ".processing"
  if remux.runOk = false then
    Except.error ("error processing video: " ++ remux.stderr ++ ", " ++ remux.runErr)
  else if remux.outputCreated = false then
    Except.error ("could not stat processed file: stat " ++ outputPath ++ ": no such file or directory")
  else if remux.outputSize = 0 then
    Except.error "processed file is empty"
  else
    Except.ok outputPath

/-- One hexadecimal digit, lowercase, as produced by Go's
`hex.EncodeToString`. -/
def hexDigit (n : Nat) : Char :=
  if n < 10 then Char.ofNat (48 + n) else Char.ofNat (97 + (n - 10))

/-- The character sequence of Go's `hex.EncodeToString`: each byte
becomes two lowercase hex digits, high nibble first. -/
def hexEncodeChars : List Nat → List Char
  | [] => []
  | b :: bs => hexDigit (b % 256 / 16) :: hexDigit (b % 16) :: hexEncodeChars bs

/-- Go's `hex.EncodeToString` on a byte slice (bytes as `Nat`s). -/
def hexEncodeToString (bytes : List Nat) : String :=
  String.mk (hexEncodeChars bytes)

/-- Characters after the first `/` of a media type (its subtype). -/
def dropThroughSlash : List Char → List Char
  | [] => []
  | c :: cs => if c = '/' then cs else dropThroughSlash cs

/-- Modelled from the spec: the extension part of `getAssetPath`, which
lives in the repository's assets file (not under `src/`): "the
extension is derived from the subtype portion of the media type (e.g.
`video/mp4` → `mp4`)". -/
def mediaTypeToExt (mediaType : String) : String :=
  String.mk (dropThroughSlash mediaType.toList)

/-- Modelled from the spec: `getAssetPath`, defined in the repository's
assets file (not under `src/`): the storage key component
`<random-token>.<ext-from-media-type>`. -/
def getAssetPath (base : String) (mediaType : String) : String :=
  base ++ "." ++ mediaTypeToExt mediaType

/-- Modelled from the spec: `(cfg).getObjectURL`, defined in the
repository's assets file (not under `src/`): "baseURL used to build the
public reference as baseURL + \"/\" + key". -/
def getObjectURL (baseURL : String) (key : String) : String :=
  baseURL ++ "/" ++ key

/-- Characters of a content-type value up to the first `;` (the media
type, before any parameters). -/
def takeUntilSemi : List Char → List Char
  | [] => []
  | c :: cs => if c = ';' then [] else c :: takeUntilSemi cs

/-- ASCII lowercasing of one character. -/
def lowerChar (c : Char) : Char :=
  if 'A' ≤ c ∧ c ≤ 'Z' then Char.ofNat (c.toNat + 32) else c

/-- Drop leading and trailing spaces. -/
def trimSpaces (l : List Char) : List Char :=
  ((l.dropWhile (fun c => c = ' ')).reverse.dropWhile (fun c => c = ' ')).reverse

/-- Model of the external standard-library `mime.ParseMediaType`
collaborator: the media type is the part of the header value before any
`;`-separated parameters, trimmed and converted to lowercase; an empty
value is a parse error (`none`). -/
def parseMediaType (contentType : String) : Option String :=
  let base := (trimSpaces (takeUntilSemi contentType.toList)).map lowerChar
  if base = [] then none else some (String.mk base)

/-- Observable events of one handler run, in program order. -/
inductive Event where
  | formFileRead : Event
  | createTemp : String → Event
  | copyToTemp : Bool → Event
  | remuxRun : String → String → Event
  | openFile : String → Event
  | probeRun : String → Event
  | removeFile : String → Event
  | putObject : String → String → String → Event
  | updateVideo : Video → Event
  deriving Repr, DecidableEq

/-- The oracle environment of one handler run: the outcome of every
external interaction the Go handler performs, in the order the source
performs them. -/
structure Env where
  videoIDValid : Bool
  tokenOk : Bool
  jwtOk : Bool
  userID : Nat
  dbVideo : Option Video
  formFileOk : Bool
  contentType : String
  createTempOk : Bool
  tempName : String
  copyOk : Bool
  remux : RemuxEnv
  openProcessedOk : Bool
  probe : ProbeEnv
  randOk : Bool
  randBytes : List Nat
  putOk : Bool
  updateOk : Bool
  s3BaseURL : String
  deriving Repr, DecidableEq

/-- What one handler run leaves behind: the HTTP status written,
whether the run reached the success response, the event trace, the
files still present under the temporary-storage root after all
deferred cleanups ran, the final state of the video record in the
record store, and the storage key of a successful upload. -/
structure RunResult where
  status : Nat
  ok : Bool
  events : List Event
  fsTemp : List String
  db : Option Video
  storedKey : Option String
  deriving Repr, DecidableEq

/-- Run the deferred `os.Remove` calls (most recently registered
first), removing each path from the temporary filesystem and recording
a `removeFile` event. -/
def runDefers : List String → List String × List Event → List String × List Event
  | [], st => st
  | p :: rest, (fs, events) => runDefers rest (fs.erase p, events ++ [Event.removeFile p])

/-- The handler's `switch ratio` statement: prefix the asset path with
the aspect bucket (`"16:9" ↦ landscape/`, `"9:16" ↦ portrait/`,
default `other/`). -/
def fileKeyFor (ratio : String) (base : String) : String :=
  match ratio with
  | "16:9" => "landscape/" ++ base
  | "9:16" => "portrait/" ++ base
  | _ => "other/" ++ base

/-- Build the `RunResult` of an exit path: run the registered deferred
removals over the current filesystem and event trace, then package the
status, success flag, record-store state and storage key. -/
def finishWith (status : Nat) (ok : Bool) (defers : List String) (fs : List String)
    (events : List Event) (db : Option Video) (key : Option String) : RunResult :=
  let st := runDefers defers (fs, events)
  ⟨status, ok, st.2, st.1, db, key⟩

/-- `handlerUploadVideo` from the Go source, statement by statement:
id validation, bearer-token auth, record fetch and ownership check,
multipart file read, media-type validation, staging to a temp file
(whose removal is deferred), `io.Copy` (whose error the Go code
discards), fast-start remux (the output's removal is deferred only
after the remux succeeded), open of the remuxed file, aspect probe of
the original staged file, random key derivation, object-store put of
the remuxed file, and the record update carrying the object URL. -/
def handlerUploadVideo (env : Env) : RunResult :=
  if env.videoIDValid = false then finishWith 400 false [] [] [] env.dbVideo none
  else if env.tokenOk = false then finishWith 401 false [] [] [] env.dbVideo none
  else if env.jwtOk = false then finishWith 401 false [] [] [] env.dbVideo none
  else
    match env.dbVideo with
    | none => finishWith 500 false [] [] [] none none
    | some vid =>
      if vid.userID ≠ env.userID then finishWith 401 false [] [] [] (some vid) none
      else if env.formFileOk = false then finishWith 500 false [] [] [Event.formFileRead] (some vid) none
      else
        let ev0 := [Event.formFileRead]
        match parseMediaType env.contentType with
        | none => finishWith 400 false [] [] ev0 (some vid) none
        | some mediaType =>
          if mediaType ≠ "video/mp4" then finishWith 400 false [] [] ev0 (some vid) none
          else if env.createTempOk = false then finishWith 500 false [] [] ev0 (some vid) none
          else
            let tempPath := env.tempName
            let ev1 := ev0 ++ [Event.createTemp tempPath, Event.copyToTemp env.copyOk]
            let fs1 := [tempPath]
            let outputPath := tempPath ++ ".processing"
            let fs2 := if env.remux.outputCreated then fs1 ++ [outputPath] else fs1
            let ev2 := ev1 ++ [Event.remuxRun tempPath outputPath]
            match processVideoForFastStart tempPath env.remux with
            | Except.error _ => finishWith 500 false [tempPath] fs2 ev2 (some vid) none
            | Except.ok processedFilePath =>
              let defers2 := [processedFilePath, tempPath]
              if env.openProcessedOk = false then
                finishWith 500 false defers2 fs2 (ev2 ++ [Event.openFile processedFilePath]) (some vid) none
              else
                let ev3 := ev2 ++ [Event.openFile processedFilePath, Event.probeRun tempPath]
                match getVideoAspectRatio tempPath env.probe with
                | Except.error _ => finishWith 500 false defers2 fs2 ev3 (some vid) none
                | Except.ok ratio =>
                  if env.randOk = false then finishWith 500 false defers2 fs2 ev3 (some vid) none
                  else
                    let base := getAssetPath (hexEncodeToString env.randBytes) mediaType
                    let fileKey := fileKeyFor ratio base
                    let ev4 := ev3 ++ [Event.putObject fileKey processedFilePath mediaType]
                    if env.putOk = false then finishWith 424 false defers2 fs2 ev4 (some vid) none
                    else
                      let url := getObjectURL env.s3BaseURL fileKey
                      let vid2 : Video := ⟨vid.userID, some url⟩
                      let ev5 := ev4 ++ [Event.updateVideo vid2]
                      if env.updateOk = false then finishWith 500 false defers2 fs2 ev5 (some vid) none
                      else finishWith 200 true defers2 fs2 ev5 (some vid2) (some fileKey)

/-- An oracle environment in which every external interaction succeeds:
a valid request by the owner (user 7) of the video, media type
`video/mp4`, staged at `stage.mp4`, a 1920×1080 first stream, and 32
zero bytes of entropy. -/
def okEnv : Env :=
  ⟨true, true, true, 7, some ⟨7, none⟩, true, "video/mp4", true, "stage.mp4", true,
    ⟨true, "", "", true, 100⟩, true, ⟨true, "", true, "", [(1920, 1080)]⟩, true,
    List.replicate 32 0, true, true, "https://tubely.example"⟩

/-- As `okEnv`, but the `io.Copy` into the staged file fails. -/
def copyFailEnv : Env :=
  ⟨true, true, true, 7, some ⟨7, none⟩, true, "video/mp4", true, "stage.mp4", false,
    ⟨true, "", "", true, 100⟩, true, ⟨true, "", true, "", [(1920, 1080)]⟩, true,
    List.replicate 32 0, true, true, "https://tubely.example"⟩

/-- As `okEnv`, but the remux tool crashes (non-zero exit, diagnostics
`DIAG` on its error stream) after having written a partial output
file. -/
def remuxCrashEnv : Env :=
  ⟨true, true, true, 7, some ⟨7, none⟩, true, "video/mp4", true, "stage.mp4", true,
    ⟨false, "exit status 1", "DIAG", true, 4⟩, true, ⟨true, "", true, "", [(1920, 1080)]⟩, true,
    List.replicate 32 0, true, true, "https://tubely.example"⟩

/-- As `okEnv`, but the remux tool exits zero having produced an empty
(zero-size) output file. -/
def remuxEmptyEnv : Env :=
  ⟨true, true, true, 7, some ⟨7, none⟩, true, "video/mp4", true, "stage.mp4", true,
    ⟨true, "", "", true, 0⟩, true, ⟨true, "", true, "", [(1920, 1080)]⟩, true,
    List.replicate 32 0, true, true, "https://tubely.example"⟩

/-- As `okEnv`, but the declared content-type is `video/avi`. -/
def aviEnv : Env :=
  ⟨true, true, true, 7, some ⟨7, none⟩, true, "video/avi", true, "stage.mp4", true,
    ⟨true, "", "", true, 100⟩, true, ⟨true, "", true, "", [(1920, 1080)]⟩, true,
    List.replicate 32 0, true, true, "https://tubely.example"⟩

/-- As `okEnv`, but the authenticated caller (user 9) does not own the
video (owned by user 7), and the declared content-type is even a valid
`video/mp4`. -/
def notOwnerEnv : Env :=
  ⟨true, true, true, 9, some ⟨7, none⟩, true, "video/mp4", true, "stage.mp4", true,
    ⟨true, "", "", true, 100⟩, true, ⟨true, "", true, "", [(1920, 1080)]⟩, true,
    List.replicate 32 0, true, true, "https://tubely.example"⟩

/-- As `okEnv`, but the object-store put fails. -/
def putFailEnv : Env :=
  ⟨true, true, true, 7, some ⟨7, none⟩, true, "video/mp4", true, "stage.mp4", true,
    ⟨true, "", "", true, 100⟩, true, ⟨true, "", true, "", [(1920, 1080)]⟩, true,
    List.replicate 32 0, false, true, "https://tubely.example"⟩

/-- The `16:9` and `9:16` tolerance windows cannot both match: their
centres are `175/144` apart, far more than twice the `0.01`
tolerance. -/
lemma not_both_windows (r : ℚ) (h916 : |r - 9 / 16| ≤ 1 / 100) :
    ¬ |r - 16 / 9| ≤ 1 / 100 := by
  obtain ⟨hl, hr⟩ := abs_le.mp h916
  intro h169
  obtain ⟨hl2, hr2⟩ := abs_le.mp h169
  linarith

/-- When the ratio is inside the 16:9 window the classifier returns
`"16:9"`. -/
lemma classifyRatio_eq_169 (width height : Int)
    (h : |(width : ℚ) / (height : ℚ) - 16 / 9| ≤ 1 / 100) :
    classifyRatio width height = "16:9" := by
  simp only [classifyRatio]
  rw [if_pos h]

/-- When the ratio is inside the 9:16 window but not the 16:9 window
the classifier returns `"9:16"`. -/
lemma classifyRatio_eq_916 (width height : Int)
    (h1 : ¬ |(width : ℚ) / (height : ℚ) - 16 / 9| ≤ 1 / 100)
    (h2 : |(width : ℚ) / (height : ℚ) - 9 / 16| ≤ 1 / 100) :
    classifyRatio width height = "9:16" := by
  simp only [classifyRatio]
  rw [if_neg h1, if_pos h2]

/-- When the ratio is inside neither window the classifier returns
`"other"`. -/
lemma classifyRatio_eq_other (width height : Int)
    (h1 : ¬ |(width : ℚ) / (height : ℚ) - 16 / 9| ≤ 1 / 100)
    (h2 : ¬ |(width : ℚ) / (height : ℚ) - 9 / 16| ≤ 1 / 100) :
    classifyRatio width height = "other" := by
  simp only [classifyRatio]
  rw [if_neg h1, if_neg h2]

/-- The handler's switch maps `"16:9"` to the `landscape` bucket. -/
lemma aspectBucket_landscape (width height : Int)
    (hc : classifyRatio width height = "16:9") :
    aspectBucket width height = "landscape" := by
  unfold aspectBucket
  rw [hc]
  rfl

/-- The handler's switch maps `"9:16"` to the `portrait` bucket. -/
lemma aspectBucket_portrait (width height : Int)
    (hc : classifyRatio width height = "9:16") :
    aspectBucket width height = "portrait" := by
  unfold aspectBucket
  rw [hc]
  rfl

/-- The handler's switch maps `"other"` to the `other` bucket. -/
lemma aspectBucket_other (width height : Int)
    (hc : classifyRatio width height = "other") :
    aspectBucket width height = "other" := by
  unfold aspectBucket
  rw [hc]
  rfl

/-- C1: for every probed (width, height) pair, the classifier returns
`landscape` when `|width/height − 16/9| ≤ 0.01`, `portrait` when
`|width/height − 9/16| ≤ 0.01` (first rule wins; the two windows are
disjoint), and `other` when neither window matches; concretely
(1920,1080) ↦ landscape, (1080,1920) ↦ portrait, (1000,1000) ↦
other. -/
theorem aspect_classifier_buckets (width height : Int) :
    (|(width : ℚ) / (height : ℚ) - 16 / 9| ≤ 1 / 100 → aspectBucket width height = "landscape") ∧
    (|(width : ℚ) / (height : ℚ) - 9 / 16| ≤ 1 / 100 → aspectBucket width height = "portrait") ∧
    (¬ |(width : ℚ) / (height : ℚ) - 16 / 9| ≤ 1 / 100 →
      ¬ |(width : ℚ) / (height : ℚ) - 9 / 16| ≤ 1 / 100 →
      aspectBucket width height = "other") ∧
    aspectBucket 1920 1080 = "landscape" ∧
    aspectBucket 1080 1920 = "portrait" ∧
    aspectBucket 1000 1000 = "other" := by
  refine ⟨fun h => ?_, fun h => ?_, fun h1 h2 => ?_, ?_, ?_, ?_⟩
  · exact aspectBucket_landscape _ _ (classifyRatio_eq_169 _ _ h)
  · exact aspectBucket_portrait _ _
      (classifyRatio_eq_916 _ _ (not_both_windows _ h) h)
  · exact aspectBucket_other _ _ (classifyRatio_eq_other _ _ h1 h2)
  · exact aspectBucket_landscape _ _ (classifyRatio_eq_169 _ _ (by norm_num [abs_le]))
  · exact aspectBucket_portrait _ _
      (classifyRatio_eq_916 _ _ (by norm_num [abs_le]) (by norm_num [abs_le]))
  · exact aspectBucket_other _ _
      (classifyRatio_eq_other _ _ (by norm_num [abs_le]) (by norm_num [abs_le]))

/-- Witness for C1 at concrete inputs: (1920,1080) is inside the 16:9
window and lands in `landscape`; (640,480) is inside neither window and
lands in `other`. -/
theorem aspect_classifier_buckets_witness :
    aspectBucket 1920 1080 = "landscape" ∧ aspectBucket 640 480 = "other" :=
  ⟨(aspect_classifier_buckets 1920 1080).1 (by norm_num [abs_le]),
   (aspect_classifier_buckets 640 480).2.2.1 (by norm_num [abs_le]) (by norm_num [abs_le])⟩

/-- C9: the classifier is total — every (width, height) pair, however
degenerate, produces one of the three buckets — and a pair with
height = 0 does not crash on the division and is classified `other`
(in Go the float division yields an infinite or NaN ratio outside both
tolerance windows; in the rational model it yields 0, also outside
both). -/
theorem aspect_classifier_total_and_zero_height :
    (∀ width height : Int,
      aspectBucket width height = "landscape" ∨ aspectBucket width height = "portrait" ∨
        aspectBucket width height = "other") ∧
    (∀ width : Int, aspectBucket width 0 = "other") := by
  constructor
  · intro width height
    by_cases h1 : |(width : ℚ) / (height : ℚ) - 16 / 9| ≤ 1 / 100
    · exact Or.inl (aspectBucket_landscape _ _ (classifyRatio_eq_169 _ _ h1))
    · by_cases h2 : |(width : ℚ) / (height : ℚ) - 9 / 16| ≤ 1 / 100
      · exact Or.inr (Or.inl (aspectBucket_portrait _ _ (classifyRatio_eq_916 _ _ h1 h2)))
      · exact Or.inr (Or.inr (aspectBucket_other _ _ (classifyRatio_eq_other _ _ h1 h2)))
  · intro width
    exact aspectBucket_other _ _
      (classifyRatio_eq_other _ _ (by norm_num [abs_le]) (by norm_num [abs_le]))

/-- A path is never equal to itself with the processing suffix. -/
lemma ne_processing (s : String) : s ≠ s ++ ".processing" := by
  intro h
  have hl := congrArg String.length h
  simp [String.length_append] at hl
  exact absurd hl (by decide)

/-- The processing suffix makes the output path differ from the input. -/
lemma processing_ne (s : String) : s ++ ".processing" ≠ s :=
  fun h => ne_processing s h.symm

/-- Running the two deferred removals (remux output first, staged file
second) empties the temporary root, whether or not the remux output was
ever created. -/
lemma erase_defers (t : String) (c : Bool) :
    (((if c = true then [t] ++ [t ++ ".processing"] else [t]).erase
      (t ++ ".processing")).erase t) = [] := by
  cases c
  · simp only [Bool.false_eq_true, if_false]
    rw [List.erase_cons_tail, List.erase_nil, List.erase_cons_head]
    simpa using ne_processing t
  · simp only [if_true]
    rw [List.cons_append, List.nil_append, List.erase_cons_tail,
      List.erase_cons_head, List.erase_cons_head]
    simpa using ne_processing t

/-- A successful remux returns the input path plus the processing
suffix. -/
lemma processVideoForFastStart_ok_path (inputPath : String) (remux : RemuxEnv)
    (out : String) (h : processVideoForFastStart inputPath remux = Except.ok out) :
    out = inputPath ++ ".processing" := by
  unfold processVideoForFastStart at h
  split_ifs at h <;> simp_all

/-- C10: the ownership check (fetched video's owner id = authenticated
user id) is evaluated before the multipart file field is parsed and
before the content-type is validated: a request by a caller who does
not own the video is answered 401 with an empty event trace — no file
field read, no temp file created, no object-store write, no record
update — and an unchanged record, regardless of the declared
content-type. -/
theorem ownership_check_first (env : Env) (vid : Video)
    (hv : env.videoIDValid = true) (ht : env.tokenOk = true) (hj : env.jwtOk = true)
    (hdb : env.dbVideo = some vid) (hown : vid.userID ≠ env.userID) :
    handlerUploadVideo env = ⟨401, false, [], [], some vid, none⟩ := by
  simp [handlerUploadVideo, hv, ht, hj, hdb, hown, finishWith, runDefers]

/-- Witness for C10: user 9 uploads to user 7's video with a valid
`video/mp4` content-type and is still rejected 401 with no events. -/
theorem ownership_check_first_witness :
    handlerUploadVideo notOwnerEnv = ⟨401, false, [], [], some ⟨7, none⟩, none⟩ :=
  ownership_check_first notOwnerEnv ⟨7, none⟩ rfl rfl rfl rfl (by decide)

/-- C2 (amended): a pipeline run that fails at the remux step removes
the staged upload file (deferred cleanup), but a remux output file the
tool created before the failure was detected — partially written or
zero-size — is *not* removed: it is left under the temporary-storage
root. -/
theorem remux_failure_cleanup (env : Env) (vid : Video)
    (hv : env.videoIDValid = true) (ht : env.tokenOk = true) (hj : env.jwtOk = true)
    (hdb : env.dbVideo = some vid) (hown : vid.userID = env.userID)
    (hff : env.formFileOk = true) (hmt : parseMediaType env.contentType = some "video/mp4")
    (hcr : env.createTempOk = true) (e : String)
    (hrem : processVideoForFastStart env.tempName env.remux = Except.error e) :
    (handlerUploadVideo env).status = 500 ∧ (handlerUploadVideo env).ok = false ∧
    Event.removeFile env.tempName ∈ (handlerUploadVideo env).events ∧
    env.tempName ∉ (handlerUploadVideo env).fsTemp ∧
    (handlerUploadVideo env).fsTemp =
      (if env.remux.outputCreated = true then [env.tempName ++ ".processing"] else []) := by
  have hres : handlerUploadVideo env = ⟨500, false,
      [Event.formFileRead, Event.createTemp env.tempName, Event.copyToTemp env.copyOk,
        Event.remuxRun env.tempName (env.tempName ++ ".processing"),
        Event.removeFile env.tempName],
      if env.remux.outputCreated = true then [env.tempName ++ ".processing"] else [],
      some vid, none⟩ := by
    by_cases hoc : env.remux.outputCreated = true
    · simp [handlerUploadVideo, hv, ht, hj, hdb, hown, hff, hmt, hcr, hrem, hoc,
        finishWith, runDefers]
    · have hocf : env.remux.outputCreated = false := by simpa using hoc
      simp [handlerUploadVideo, hv, ht, hj, hdb, hown, hff, hmt, hcr, hrem, hocf,
        finishWith, runDefers]
  rw [hres]
  refine ⟨rfl, rfl, by simp, ?_, rfl⟩
  by_cases hoc : env.remux.outputCreated = true
  · simp [hoc, ne_processing env.tempName]
  · have hocf : env.remux.outputCreated = false := by simpa using hoc
    simp [hocf]

/-- Counterexample for C2 as stated: a run in which the remux tool
exits zero but produces a zero-size output file fails at the remux step
yet leaves `stage.mp4.processing` under the temporary-storage root —
not zero files. -/
theorem remux_failure_leaves_output :
    (handlerUploadVideo remuxEmptyEnv).ok = false ∧
    (handlerUploadVideo remuxEmptyEnv).status = 500 ∧
    (handlerUploadVideo remuxEmptyEnv).fsTemp = ["stage.mp4.processing"] := by
  have hparse : parseMediaType "video/mp4" = some "video/mp4" := by decide
  refine ⟨?_, ?_, ?_⟩ <;>
    simp [handlerUploadVideo, remuxEmptyEnv, hparse, processVideoForFastStart,
      finishWith, runDefers]

/-- Witness for C2 (amended) with a crashing remux tool that left a
partial output file: the staged file is gone, the partial output
remains. -/
theorem remux_failure_cleanup_witness :
    (handlerUploadVideo remuxCrashEnv).status = 500 ∧
    (handlerUploadVideo remuxCrashEnv).ok = false ∧
    Event.removeFile "stage.mp4" ∈ (handlerUploadVideo remuxCrashEnv).events ∧
    "stage.mp4" ∉ (handlerUploadVideo remuxCrashEnv).fsTemp ∧
    (handlerUploadVideo remuxCrashEnv).fsTemp = ["stage.mp4.processing"] := by
  have h := remux_failure_cleanup remuxCrashEnv ⟨7, none⟩ rfl rfl rfl rfl rfl rfl
    (by decide) rfl "error processing video: DIAG, exit status 1" rfl
  exact ⟨h.1, h.2.1, h.2.2.1, h.2.2.2.1, by simpa using h.2.2.2.2⟩


/-- Exhaustive description of one handler run: exactly one exit path is
taken, and on each the full `RunResult` is explicit. -/
lemma run_exhaustive (env : Env) :
    (env.videoIDValid = false ∧ handlerUploadVideo env = ⟨400, false, [], [], env.dbVideo, none⟩)
    ∨ (env.videoIDValid = true ∧
      ((env.tokenOk = false ∧ handlerUploadVideo env = ⟨401, false, [], [], env.dbVideo, none⟩)
      ∨ (env.tokenOk = true ∧
        ((env.jwtOk = false ∧ handlerUploadVideo env = ⟨401, false, [], [], env.dbVideo, none⟩)
        ∨ (env.jwtOk = true ∧
          ((env.dbVideo = none ∧ handlerUploadVideo env = ⟨500, false, [], [], none, none⟩)
          ∨ (∃ vid, env.dbVideo = some vid ∧
            ((vid.userID ≠ env.userID ∧ handlerUploadVideo env = ⟨401, false, [], [], some vid, none⟩)
            ∨ (vid.userID = env.userID ∧
              ((env.formFileOk = false ∧ handlerUploadVideo env = ⟨500, false, [Event.formFileRead], [], some vid, none⟩)
              ∨ (env.formFileOk = true ∧
                ((parseMediaType env.contentType = none ∧ handlerUploadVideo env = ⟨400, false, [Event.formFileRead], [], some vid, none⟩)
                ∨ (∃ mt, parseMediaType env.contentType = some mt ∧
                  ((mt ≠ "video/mp4" ∧ handlerUploadVideo env = ⟨400, false, [Event.formFileRead], [], some vid, none⟩)
                  ∨ (mt = "video/mp4" ∧
                    ((env.createTempOk = false ∧ handlerUploadVideo env = ⟨500, false, [Event.formFileRead], [], some vid, none⟩)
                    ∨ (env.createTempOk = true ∧
                      ((∃ e, processVideoForFastStart env.tempName env.remux = Except.error e ∧
                          handlerUploadVideo env = ⟨500, false,
                            [Event.formFileRead, Event.createTemp env.tempName,
                              Event.copyToTemp env.copyOk,
                              Event.remuxRun env.tempName (env.tempName ++ ".processing"),
                              Event.removeFile env.tempName],
                            if env.remux.outputCreated = true then [env.tempName ++ ".processing"] else [],
                            some vid, none⟩)
                      ∨ (processVideoForFastStart env.tempName env.remux =
                            Except.ok (env.tempName ++ ".processing") ∧
                        ((env.openProcessedOk = false ∧ handlerUploadVideo env = ⟨500, false,
                            [Event.formFileRead, Event.createTemp env.tempName,
                              Event.copyToTemp env.copyOk,
                              Event.remuxRun env.tempName (env.tempName ++ ".processing"),
                              Event.openFile (env.tempName ++ ".processing"),
                              Event.removeFile (env.tempName ++ ".processing"),
                              Event.removeFile env.tempName],
                            [], some vid, none⟩)
                        ∨ (env.openProcessedOk = true ∧
                          ((∃ e, getVideoAspectRatio env.tempName env.probe = Except.error e ∧
                              handlerUploadVideo env = ⟨500, false,
                                [Event.formFileRead, Event.createTemp env.tempName,
                                  Event.copyToTemp env.copyOk,
                                  Event.remuxRun env.tempName (env.tempName ++ ".processing"),
                                  Event.openFile (env.tempName ++ ".processing"),
                                  Event.probeRun env.tempName,
                                  Event.removeFile (env.tempName ++ ".processing"),
                                  Event.removeFile env.tempName],
                                [], some vid, none⟩)
                          ∨ (∃ ratio, getVideoAspectRatio env.tempName env.probe = Except.ok ratio ∧
                            ((env.randOk = false ∧ handlerUploadVideo env = ⟨500, false,
                                [Event.formFileRead, Event.createTemp env.tempName,
                                  Event.copyToTemp env.copyOk,
                                  Event.remuxRun env.tempName (env.tempName ++ ".processing"),
                                  Event.openFile (env.tempName ++ ".processing"),
                                  Event.probeRun env.tempName,
                                  Event.removeFile (env.tempName ++ ".processing"),
                                  Event.removeFile env.tempName],
                                [], some vid, none⟩)
                            ∨ (env.randOk = true ∧
                              ((env.putOk = false ∧ handlerUploadVideo env = ⟨424, false,
                                  [Event.formFileRead, Event.createTemp env.tempName,
                                    Event.copyToTemp env.copyOk,
                                    Event.remuxRun env.tempName (env.tempName ++ ".processing"),
                                    Event.openFile (env.tempName ++ ".processing"),
                                    Event.probeRun env.tempName,
                                    Event.putObject
                                      (fileKeyFor ratio (getAssetPath (hexEncodeToString env.randBytes) "video/mp4"))
                                      (env.tempName ++ ".processing") "video/mp4",
                                    Event.removeFile (env.tempName ++ ".processing"),
                                    Event.removeFile env.tempName],
                                  [], some vid, none⟩)
                              ∨ (env.putOk = true ∧
                                ((env.updateOk = false ∧ handlerUploadVideo env = ⟨500, false,
                                    [Event.formFileRead, Event.createTemp env.tempName,
                                      Event.copyToTemp env.copyOk,
                                      Event.remuxRun env.tempName (env.tempName ++ ".processing"),
                                      Event.openFile (env.tempName ++ ".processing"),
                                      Event.probeRun env.tempName,
                                      Event.putObject
                                        (fileKeyFor ratio (getAssetPath (hexEncodeToString env.randBytes) "video/mp4"))
                                        (env.tempName ++ ".processing") "video/mp4",
                                      Event.updateVideo ⟨vid.userID, some (getObjectURL env.s3BaseURL
                                        (fileKeyFor ratio (getAssetPath (hexEncodeToString env.randBytes) "video/mp4")))⟩,
                                      Event.removeFile (env.tempName ++ ".processing"),
                                      Event.removeFile env.tempName],
                                    [], some vid, none⟩)
                                ∨ (env.updateOk = true ∧ handlerUploadVideo env = ⟨200, true,
                                    [Event.formFileRead, Event.createTemp env.tempName,
                                      Event.copyToTemp env.copyOk,
                                      Event.remuxRun env.tempName (env.tempName ++ ".processing"),
                                      Event.openFile (env.tempName ++ ".processing"),
                                      Event.probeRun env.tempName,
                                      Event.putObject
                                        (fileKeyFor ratio (getAssetPath (hexEncodeToString env.randBytes) "video/mp4"))
                                        (env.tempName ++ ".processing") "video/mp4",
                                      Event.updateVideo ⟨vid.userID, some (getObjectURL env.s3BaseURL
                                        (fileKeyFor ratio (getAssetPath (hexEncodeToString env.randBytes) "video/mp4")))⟩,
                                      Event.removeFile (env.tempName ++ ".processing"),
                                      Event.removeFile env.tempName],
                                    [],
                                    some ⟨vid.userID, some (getObjectURL env.s3BaseURL
                                      (fileKeyFor ratio (getAssetPath (hexEncodeToString env.randBytes) "video/mp4")))⟩,
                                    some (fileKeyFor ratio (getAssetPath (hexEncodeToString env.randBytes) "video/mp4"))⟩))))))))))))))))))))))))))))) := by
  by_cases h1 : env.videoIDValid = false
  · exact Or.inl ⟨h1, by simp [handlerUploadVideo, h1, finishWith, runDefers]⟩
  have h1t : env.videoIDValid = true := by simpa using h1
  refine Or.inr ⟨h1t, ?_⟩
  by_cases h2 : env.tokenOk = false
  · exact Or.inl ⟨h2, by simp [handlerUploadVideo, h1t, h2, finishWith, runDefers]⟩
  have h2t : env.tokenOk = true := by simpa using h2
  refine Or.inr ⟨h2t, ?_⟩
  by_cases h3 : env.jwtOk = false
  · exact Or.inl ⟨h3, by simp [handlerUploadVideo, h1t, h2t, h3, finishWith, runDefers]⟩
  have h3t : env.jwtOk = true := by simpa using h3
  refine Or.inr ⟨h3t, ?_⟩
  cases hdb : env.dbVideo with
  | none => exact Or.inl ⟨rfl, by simp [handlerUploadVideo, h1t, h2t, h3t, hdb, finishWith, runDefers]⟩
  | some vid =>
  refine Or.inr ⟨vid, rfl, ?_⟩
  by_cases h4 : vid.userID = env.userID
  case neg =>
    exact Or.inl ⟨h4, by simp [handlerUploadVideo, h1t, h2t, h3t, hdb, h4, finishWith, runDefers]⟩
  refine Or.inr ⟨h4, ?_⟩
  by_cases h5 : env.formFileOk = false
  · exact Or.inl ⟨h5, by simp [handlerUploadVideo, h1t, h2t, h3t, hdb, h4, h5, finishWith, runDefers]⟩
  have h5t : env.formFileOk = true := by simpa using h5
  refine Or.inr ⟨h5t, ?_⟩
  cases hmt : parseMediaType env.contentType with
  | none => exact Or.inl ⟨rfl, by simp [handlerUploadVideo, h1t, h2t, h3t, hdb, h4, h5t, hmt, finishWith, runDefers]⟩
  | some mt =>
  refine Or.inr ⟨mt, rfl, ?_⟩
  by_cases h6 : mt = "video/mp4"
  case neg =>
    exact Or.inl ⟨h6, by simp [handlerUploadVideo, h1t, h2t, h3t, hdb, h4, h5t, hmt, h6, finishWith, runDefers]⟩
  subst h6
  refine Or.inr ⟨rfl, ?_⟩
  by_cases h7 : env.createTempOk = false
  · exact Or.inl ⟨h7, by simp [handlerUploadVideo, h1t, h2t, h3t, hdb, h4, h5t, hmt, h7, finishWith, runDefers]⟩
  have h7t : env.createTempOk = true := by simpa using h7
  refine Or.inr ⟨h7t, ?_⟩
  cases hrem : processVideoForFastStart env.tempName env.remux with
  | error e =>
    refine Or.inl ⟨e, rfl, ?_⟩
    by_cases hoc : env.remux.outputCreated = true
    · simp [handlerUploadVideo, h1t, h2t, h3t, hdb, h4, h5t, hmt, h7t, hrem, hoc, finishWith, runDefers]
    · have hocf : env.remux.outputCreated = false := by simpa using hoc
      simp [handlerUploadVideo, h1t, h2t, h3t, hdb, h4, h5t, hmt, h7t, hrem, hocf, finishWith, runDefers]
  | ok out =>
  have hout := processVideoForFastStart_ok_path env.tempName env.remux out hrem
  subst hout
  refine Or.inr ⟨rfl, ?_⟩
  by_cases h8 : env.openProcessedOk = false
  · refine Or.inl ⟨h8, ?_⟩
    by_cases hoc : env.remux.outputCreated = true
    · simp [handlerUploadVideo, h1t, h2t, h3t, hdb, h4, h5t, hmt, h7t, hrem, h8, hoc, finishWith, runDefers, ne_processing env.tempName, processing_ne env.tempName]
    · have hocf : env.remux.outputCreated = false := by simpa using hoc
      simp [handlerUploadVideo, h1t, h2t, h3t, hdb, h4, h5t, hmt, h7t, hrem, h8, hocf, finishWith, runDefers, ne_processing env.tempName, processing_ne env.tempName]
  have h8t : env.openProcessedOk = true := by simpa using h8
  refine Or.inr ⟨h8t, ?_⟩
  cases hpr : getVideoAspectRatio env.tempName env.probe with
  | error e =>
    refine Or.inl ⟨e, rfl, ?_⟩
    by_cases hoc : env.remux.outputCreated = true
    · simp [handlerUploadVideo, h1t, h2t, h3t, hdb, h4, h5t, hmt, h7t, hrem, h8t, hpr, hoc, finishWith, runDefers, ne_processing env.tempName, processing_ne env.tempName]
    · have hocf : env.remux.outputCreated = false := by simpa using hoc
      simp [handlerUploadVideo, h1t, h2t, h3t, hdb, h4, h5t, hmt, h7t, hrem, h8t, hpr, hocf, finishWith, runDefers, ne_processing env.tempName, processing_ne env.tempName]
  | ok ratio =>
  refine Or.inr ⟨ratio, rfl, ?_⟩
  by_cases h9 : env.randOk = false
  · refine Or.inl ⟨h9, ?_⟩
    by_cases hoc : env.remux.outputCreated = true
    · simp [handlerUploadVideo, h1t, h2t, h3t, hdb, h4, h5t, hmt, h7t, hrem, h8t, hpr, h9, hoc, finishWith, runDefers, ne_processing env.tempName, processing_ne env.tempName]
    · have hocf : env.remux.outputCreated = false := by simpa using hoc
      simp [handlerUploadVideo, h1t, h2t, h3t, hdb, h4, h5t, hmt, h7t, hrem, h8t, hpr, h9, hocf, finishWith, runDefers, ne_processing env.tempName, processing_ne env.tempName]
  have h9t : env.randOk = true := by simpa using h9
  refine Or.inr ⟨h9t, ?_⟩
  by_cases h10 : env.putOk = false
  · refine Or.inl ⟨h10, ?_⟩
    by_cases hoc : env.remux.outputCreated = true
    · simp [handlerUploadVideo, h1t, h2t, h3t, hdb, h4, h5t, hmt, h7t, hrem, h8t, hpr, h9t, h10, hoc, finishWith, runDefers, ne_processing env.tempName, processing_ne env.tempName]
    · have hocf : env.remux.outputCreated = false := by simpa using hoc
      simp [handlerUploadVideo, h1t, h2t, h3t, hdb, h4, h5t, hmt, h7t, hrem, h8t, hpr, h9t, h10, hocf, finishWith, runDefers, ne_processing env.tempName, processing_ne env.tempName]
  have h10t : env.putOk = true := by simpa using h10
  refine Or.inr ⟨h10t, ?_⟩
  by_cases h11 : env.updateOk = false
  · refine Or.inl ⟨h11, ?_⟩
    by_cases hoc : env.remux.outputCreated = true
    · simp [handlerUploadVideo, h1t, h2t, h3t, hdb, h4, h5t, hmt, h7t, hrem, h8t, hpr, h9t, h10t, h11, hoc, finishWith, runDefers, ne_processing env.tempName, processing_ne env.tempName]
    · have hocf : env.remux.outputCreated = false := by simpa using hoc
      simp [handlerUploadVideo, h1t, h2t, h3t, hdb, h4, h5t, hmt, h7t, hrem, h8t, hpr, h9t, h10t, h11, hocf, finishWith, runDefers, ne_processing env.tempName, processing_ne env.tempName]
  have h11t : env.updateOk = true := by simpa using h11
  refine Or.inr ⟨h11t, ?_⟩
  by_cases hoc : env.remux.outputCreated = true
  · simp [handlerUploadVideo, h1t, h2t, h3t, hdb, h4, h5t, hmt, h7t, hrem, h8t, hpr, h9t, h10t, h11t, hoc, finishWith, runDefers, ne_processing env.tempName, processing_ne env.tempName]
  · have hocf : env.remux.outputCreated = false := by simpa using hoc
    simp [handlerUploadVideo, h1t, h2t, h3t, hdb, h4, h5t, hmt, h7t, hrem, h8t, hpr, h9t, h10t, h11t, hocf, finishWith, runDefers, ne_processing env.tempName, processing_ne env.tempName]


/-- C3: the record's video URL is written only after the object store
acknowledged the write: every record-update event presupposes the put
succeeded, and when the put fails the handler errors out, performs no
record update, and leaves the stored record unchanged. -/
theorem videoURL_only_after_put (env : Env) :
    (∀ v : Video, Event.updateVideo v ∈ (handlerUploadVideo env).events → env.putOk = true) ∧
    (env.putOk = false →
      (handlerUploadVideo env).ok = false ∧
      (handlerUploadVideo env).db = env.dbVideo ∧
      ∀ v : Video, Event.updateVideo v ∉ (handlerUploadVideo env).events) := by
  rcases run_exhaustive env with ⟨hc, heq⟩ |
    ⟨hv, ⟨hc, heq⟩ | ⟨htk, ⟨hc, heq⟩ | ⟨hjw, ⟨hc, heq⟩ | ⟨vid, hdb, ⟨hc, heq⟩ |
    ⟨hown, ⟨hc, heq⟩ | ⟨hff, ⟨hc, heq⟩ | ⟨mt, hmt, ⟨hc, heq⟩ | ⟨hmt4, ⟨hc, heq⟩ |
    ⟨hcr, ⟨e, hrem0, heq⟩ | ⟨hrem, ⟨hc, heq⟩ | ⟨hop, ⟨e, hpr0, heq⟩ | ⟨ratio, hpr, ⟨hc, heq⟩ |
    ⟨hrnd, ⟨hput, heq⟩ | ⟨hputT, ⟨hupd, heq⟩ | ⟨hupdT, heq⟩⟩⟩⟩⟩⟩⟩⟩⟩⟩⟩⟩⟩⟩⟩ <;>
    rw [heq] <;> simp_all

/-- Witness for C3: with the object-store put failing and every other
oracle succeeding, the run fails, the record is unchanged, and no
update event was emitted. -/
theorem videoURL_only_after_put_witness :
    (handlerUploadVideo putFailEnv).ok = false ∧
    (handlerUploadVideo putFailEnv).db = some ⟨7, none⟩ ∧
    ∀ v : Video, Event.updateVideo v ∉ (handlerUploadVideo putFailEnv).events := by
  have h := (videoURL_only_after_put putFailEnv).2 rfl
  exact ⟨h.1, by simpa [putFailEnv] using h.2.1, h.2.2⟩

/-- C5: on every successful run the geometry probe reads the original
staged file (and only it), while the object-store put carries the bytes
of the remuxed artifact (input path plus processing suffix), and a put
happens only once the remux has succeeded. -/
theorem probe_original_upload_remuxed (env : Env)
    (hok : (handlerUploadVideo env).ok = true) :
    Event.probeRun env.tempName ∈ (handlerUploadVideo env).events ∧
    (∀ p, Event.probeRun p ∈ (handlerUploadVideo env).events → p = env.tempName) ∧
    processVideoForFastStart env.tempName env.remux =
      Except.ok (env.tempName ++ ".processing") ∧
    (∃ key, Event.putObject key (env.tempName ++ ".processing") "video/mp4" ∈
      (handlerUploadVideo env).events) ∧
    (∀ k b c, Event.putObject k b c ∈ (handlerUploadVideo env).events →
      b = env.tempName ++ ".processing" ∧ c = "video/mp4") := by
  rcases run_exhaustive env with ⟨hc, heq⟩ |
    ⟨hv, ⟨hc, heq⟩ | ⟨htk, ⟨hc, heq⟩ | ⟨hjw, ⟨hc, heq⟩ | ⟨vid, hdb, ⟨hc, heq⟩ |
    ⟨hown, ⟨hc, heq⟩ | ⟨hff, ⟨hc, heq⟩ | ⟨mt, hmt, ⟨hc, heq⟩ | ⟨hmt4, ⟨hc, heq⟩ |
    ⟨hcr, ⟨e, hrem0, heq⟩ | ⟨hrem, ⟨hc, heq⟩ | ⟨hop, ⟨e, hpr0, heq⟩ | ⟨ratio, hpr, ⟨hc, heq⟩ |
    ⟨hrnd, ⟨hput, heq⟩ | ⟨hputT, ⟨hupd, heq⟩ | ⟨hupdT, heq⟩⟩⟩⟩⟩⟩⟩⟩⟩⟩⟩⟩⟩⟩⟩ <;>
    rw [heq] at hok ⊢ <;> simp_all

/-- C6: a request whose media type is not `video/mp4` is never a
successful run, never creates a temporary file (no staging side
effects), and — when it survives the earlier id/auth/ownership/form
checks — is rejected with the client-facing 400 validation error. -/
theorem reject_non_mp4_before_staging (env : Env)
    (hct : parseMediaType env.contentType ≠ some "video/mp4") :
    (handlerUploadVideo env).ok = false ∧
    (∀ p, Event.createTemp p ∉ (handlerUploadVideo env).events) ∧
    (handlerUploadVideo env).fsTemp = [] ∧
    (env.videoIDValid = true → env.tokenOk = true → env.jwtOk = true →
      ∀ vid : Video, env.dbVideo = some vid → vid.userID = env.userID →
      env.formFileOk = true → (handlerUploadVideo env).status = 400) := by
  rcases run_exhaustive env with ⟨hc, heq⟩ |
    ⟨hv, ⟨hc, heq⟩ | ⟨htk, ⟨hc, heq⟩ | ⟨hjw, ⟨hc, heq⟩ | ⟨vid, hdb, ⟨hc, heq⟩ |
    ⟨hown, ⟨hc, heq⟩ | ⟨hff, ⟨hc, heq⟩ | ⟨mt, hmt, ⟨hc, heq⟩ | ⟨hmt4, ⟨hc, heq⟩ |
    ⟨hcr, ⟨e, hrem0, heq⟩ | ⟨hrem, ⟨hc, heq⟩ | ⟨hop, ⟨e, hpr0, heq⟩ | ⟨ratio, hpr, ⟨hc, heq⟩ |
    ⟨hrnd, ⟨hput, heq⟩ | ⟨hputT, ⟨hupd, heq⟩ | ⟨hupdT, heq⟩⟩⟩⟩⟩⟩⟩⟩⟩⟩⟩⟩⟩⟩⟩ <;>
    rw [heq] <;> simp_all


/-- Two hex digits per byte: the encoded token of an `n`-byte slice has
`2 n` characters. -/
lemma hexEncodeChars_length (bs : List Nat) : (hexEncodeChars bs).length = 2 * bs.length := by
  induction bs with
  | nil => rfl
  | cons b bs ih =>
    simp only [hexEncodeChars, List.length_cons, ih]
    omega

/-- Every hex digit of a nibble is a lowercase-hex character. -/
lemma hexDigit_safe :
    ∀ n : Nat, n < 16 → ('0' ≤ hexDigit n ∧ hexDigit n ≤ '9') ∨ ('a' ≤ hexDigit n ∧ hexDigit n ≤ 'f') := by
  decide

/-- Every character of the hex encoding is a lowercase-hex character,
hence URL- and filesystem-safe. -/
lemma hexEncodeChars_safe (bs : List Nat) :
    ∀ c ∈ hexEncodeChars bs, ('0' ≤ c ∧ c ≤ '9') ∨ ('a' ≤ c ∧ c ≤ 'f') := by
  induction bs with
  | nil => simp [hexEncodeChars]
  | cons b bs ih =>
    intro c hc
    simp only [hexEncodeChars, List.mem_cons] at hc
    rcases hc with h | h | h
    · exact h ▸ hexDigit_safe _ (by omega)
    · exact h ▸ hexDigit_safe _ (by omega)
    · exact ih c h

/-- The bucket prefix of a storage key is one of the three buckets, and
the `16:9` ratio string picks `landscape`. -/
lemma fileKeyFor_parts (ratio base : String) :
    ∃ b, (b = "landscape" ∨ b = "portrait" ∨ b = "other") ∧
      fileKeyFor ratio base = b ++ "/" ++ base ∧ (ratio = "16:9" → b = "landscape") := by
  unfold fileKeyFor
  split
  · refine ⟨"landscape", Or.inl rfl, ?_, fun _ => rfl⟩
    exact (congrArg (fun s => s ++ base) (show ("landscape" : String) ++ "/" = "landscape/" by decide)).symm
  · refine ⟨"portrait", Or.inr (Or.inl rfl), ?_, by simp⟩
    exact (congrArg (fun s => s ++ base) (show ("portrait" : String) ++ "/" = "portrait/" by decide)).symm
  · refine ⟨"other", Or.inr (Or.inr rfl), ?_, by simp_all⟩
    exact (congrArg (fun s => s ++ base) (show ("other" : String) ++ "/" = "other/" by decide)).symm

/-- The asset path of a `video/mp4` upload carries the `mp4`
extension. -/
lemma getAssetPath_mp4 (base : String) : getAssetPath base "video/mp4" = base ++ ".mp4" := by
  show base ++ "." ++ mediaTypeToExt "video/mp4" = base ++ ".mp4"
  rw [show mediaTypeToExt "video/mp4" = "mp4" by decide, String.append_assoc,
    show ("." : String) ++ "mp4" = ".mp4" by decide]

/-- A successful probe classifies the first parsed stream. -/
lemma getVideoAspectRatio_classify (fp : String) (probe : ProbeEnv) (ratio : String)
    (h : getVideoAspectRatio fp probe = Except.ok ratio) (w ht : Int)
    (rest : List (Int × Int)) (hs : probe.streams = (w, ht) :: rest) :
    ratio = classifyRatio w ht := by
  unfold getVideoAspectRatio at h
  rw [hs] at h
  split_ifs at h <;> simp_all

/-- A fully successful concrete run: the probe classifies 1920×1080 as
16:9 and the handler completes with 200. -/
lemma okEnv_ok : (handlerUploadVideo okEnv).ok = true := by
  have hprobe : getVideoAspectRatio "stage.mp4"
      (⟨true, "", true, "", [(1920, 1080)]⟩ : ProbeEnv) = Except.ok "16:9" := by
    have h169 := classifyRatio_eq_169 1920 1080 (by norm_num [abs_le])
    simp [getVideoAspectRatio, h169]
  have hparse : parseMediaType "video/mp4" = some "video/mp4" := by decide
  simp [handlerUploadVideo, okEnv, hprobe, hparse, finishWith, runDefers,
    processVideoForFastStart]

/-- C7: on every successful run the storage key has the form
`<bucket>/<token>.mp4` with the bucket one of `landscape`,
`portrait`, `other`, the token the lowercase-hex encoding of the
requested 32-byte random buffer (64 URL- and filesystem-safe
characters), the recorded video URL is the store base URL joined with
`/` and the key, and an exactly-16:9 probed geometry yields the
`landscape` bucket. -/
theorem storage_key_format (env : Env)
    (hok : (handlerUploadVideo env).ok = true) :
    ∃ bucket key vid,
      (bucket = "landscape" ∨ bucket = "portrait" ∨ bucket = "other") ∧
      key = bucket ++ "/" ++ (hexEncodeToString env.randBytes ++ ".mp4") ∧
      (handlerUploadVideo env).storedKey = some key ∧
      env.dbVideo = some vid ∧
      (handlerUploadVideo env).db =
        some ⟨vid.userID, some (getObjectURL env.s3BaseURL key)⟩ ∧
      (env.randBytes.length = 32 →
        (hexEncodeChars env.randBytes).length = 64 ∧
        ∀ c ∈ hexEncodeChars env.randBytes,
          ('0' ≤ c ∧ c ≤ '9') ∨ ('a' ≤ c ∧ c ≤ 'f')) ∧
      (∀ (w h : Int) (rest : List (Int × Int)), env.probe.streams = (w, h) :: rest →
        (w : ℚ) / (h : ℚ) = 16 / 9 → bucket = "landscape") := by
  rcases run_exhaustive env with ⟨hc, heq⟩ |
    ⟨hv, ⟨hc, heq⟩ | ⟨htk, ⟨hc, heq⟩ | ⟨hjw, ⟨hc, heq⟩ | ⟨vid, hdb, ⟨hc, heq⟩ |
    ⟨hown, ⟨hc, heq⟩ | ⟨hff, ⟨hc, heq⟩ | ⟨mt, hmt, ⟨hc, heq⟩ | ⟨hmt4, ⟨hc, heq⟩ |
    ⟨hcr, ⟨e, hrem0, heq⟩ | ⟨hrem, ⟨hc, heq⟩ | ⟨hop, ⟨e, hpr0, heq⟩ | ⟨ratio, hpr, ⟨hc, heq⟩ |
    ⟨hrnd, ⟨hput, heq⟩ | ⟨hputT, ⟨hupd, heq⟩ | ⟨hupdT, heq⟩⟩⟩⟩⟩⟩⟩⟩⟩⟩⟩⟩⟩⟩⟩
  all_goals rw [heq] at hok
  all_goals try simp at hok
  obtain ⟨b, hbmem, hbkey, hb169⟩ :=
    fileKeyFor_parts ratio (getAssetPath (hexEncodeToString env.randBytes) "video/mp4")
  refine ⟨b, fileKeyFor ratio (getAssetPath (hexEncodeToString env.randBytes) "video/mp4"),
    vid, hbmem, ?_, ?_, hdb, ?_, ?_, ?_⟩
  · rw [hbkey, getAssetPath_mp4]
  · rw [heq]
  · rw [heq]
  · intro hlen
    refine ⟨by rw [hexEncodeChars_length, hlen], hexEncodeChars_safe env.randBytes⟩
  · intro w h rest hs hq
    have hcl := getVideoAspectRatio_classify env.tempName env.probe ratio hpr w h rest hs
    have h169 : classifyRatio w h = "16:9" := by
      refine classifyRatio_eq_169 w h ?_
      rw [hq]
      norm_num
    exact hb169 (hcl.trans h169)

/-- Witness for C7 at the all-success environment `okEnv`. -/
theorem storage_key_format_witness :
    ∃ bucket key vid,
      (bucket = "landscape" ∨ bucket = "portrait" ∨ bucket = "other") ∧
      key = bucket ++ "/" ++ (hexEncodeToString okEnv.randBytes ++ ".mp4") ∧
      (handlerUploadVideo okEnv).storedKey = some key ∧
      okEnv.dbVideo = some vid ∧
      (handlerUploadVideo okEnv).db =
        some ⟨vid.userID, some (getObjectURL okEnv.s3BaseURL key)⟩ ∧
      (okEnv.randBytes.length = 32 →
        (hexEncodeChars okEnv.randBytes).length = 64 ∧
        ∀ c ∈ hexEncodeChars okEnv.randBytes,
          ('0' ≤ c ∧ c ≤ '9') ∨ ('a' ≤ c ∧ c ≤ 'f')) ∧
      (∀ (w h : Int) (rest : List (Int × Int)), okEnv.probe.streams = (w, h) :: rest →
        (w : ℚ) / (h : ℚ) = 16 / 9 → bucket = "landscape") :=
  storage_key_format okEnv okEnv_ok

/-- Witness for C5 at the all-success environment `okEnv`. -/
theorem probe_original_upload_remuxed_witness :
    Event.probeRun okEnv.tempName ∈ (handlerUploadVideo okEnv).events ∧
    (∀ p, Event.probeRun p ∈ (handlerUploadVideo okEnv).events → p = okEnv.tempName) ∧
    processVideoForFastStart okEnv.tempName okEnv.remux =
      Except.ok (okEnv.tempName ++ ".processing") ∧
    (∃ key, Event.putObject key (okEnv.tempName ++ ".processing") "video/mp4" ∈
      (handlerUploadVideo okEnv).events) ∧
    (∀ k b c, Event.putObject k b c ∈ (handlerUploadVideo okEnv).events →
      b = okEnv.tempName ++ ".processing" ∧ c = "video/mp4") :=
  probe_original_upload_remuxed okEnv okEnv_ok

/-- Witness for C6: a request declaring `video/avi` passes id, auth
and ownership checks but is rejected 400 with no staging side
effects. -/
theorem reject_non_mp4_before_staging_witness :
    (handlerUploadVideo aviEnv).ok = false ∧
    (handlerUploadVideo aviEnv).fsTemp = [] ∧
    (handlerUploadVideo aviEnv).status = 400 := by
  have h := reject_non_mp4_before_staging aviEnv (by decide)
  exact ⟨h.1, h.2.2.1, h.2.2.2 rfl rfl rfl ⟨7, none⟩ rfl rfl rfl⟩

/-- C4 (code bug): the Go handler discards the error returned by
`io.Copy` when staging the inbound bytes, so a run whose disk write
fails mid-copy is *not* aborted: with every later oracle succeeding the
pipeline remuxes, probes and uploads the truncated staged file and
completes with 200. -/
theorem copy_error_not_fatal :
    (handlerUploadVideo copyFailEnv).status = 200 ∧
    (handlerUploadVideo copyFailEnv).ok = true ∧
    Event.copyToTemp false ∈ (handlerUploadVideo copyFailEnv).events ∧
    Event.putObject
      (fileKeyFor "16:9" (getAssetPath (hexEncodeToString (List.replicate 32 0)) "video/mp4"))
      "stage.mp4.processing" "video/mp4" ∈ (handlerUploadVideo copyFailEnv).events := by
  have hprobe : getVideoAspectRatio "stage.mp4"
      (⟨true, "", true, "", [(1920, 1080)]⟩ : ProbeEnv) = Except.ok "16:9" := by
    have h169 := classifyRatio_eq_169 1920 1080 (by norm_num [abs_le])
    simp [getVideoAspectRatio, h169]
  have hparse : parseMediaType "video/mp4" = some "video/mp4" := by decide
  refine ⟨?_, ?_, ?_, ?_⟩ <;>
    simp [handlerUploadVideo, copyFailEnv, hprobe, hparse, finishWith, runDefers,
      processVideoForFastStart]

/-- C8 (amended): the remux output path is the input path plus the
`.processing` suffix, and the operation succeeds exactly when the
external process exits zero, the output file exists and it has non-zero
size; on failure an error is signalled, and it includes the captured
diagnostic output from the tool's error stream when the external
process exited non-zero (the existence and size postcondition failures
signal errors that do not embed the diagnostics). -/
theorem remux_postconditions (inputPath : String) (remux : RemuxEnv) :
    ((∃ out, processVideoForFastStart inputPath remux = Except.ok out) ↔
      (remux.runOk = true ∧ remux.outputCreated = true ∧ remux.outputSize ≠ 0)) ∧
    (∀ out, processVideoForFastStart inputPath remux = Except.ok out →
      out = inputPath ++ ".processing") ∧
    (remux.runOk = false →
      ∃ msg, processVideoForFastStart inputPath remux = Except.error msg ∧
        List.IsInfix remux.stderr.toList msg.toList) := by
  refine ⟨⟨?_, ?_⟩, ?_, ?_⟩
  · rintro ⟨out, h⟩
    unfold processVideoForFastStart at h
    split_ifs at h <;> simp_all
  · rintro ⟨h1, h2, h3⟩
    exact ⟨inputPath ++ ".processing", by simp [processVideoForFastStart, h1, h2, h3]⟩
  · exact fun out => processVideoForFastStart_ok_path inputPath remux out
  · intro h0
    refine ⟨"error processing video: " ++ remux.stderr ++ ", " ++ remux.runErr,
      by simp [processVideoForFastStart, h0], ?_⟩
    refine ⟨"error processing video: ".toList, (", " ++ remux.runErr).toList, ?_⟩
    simp [String.toList, String.data_append, List.append_assoc]

set_option maxRecDepth 8192 in
/-- Counterexample for C8 as stated: the tool exits zero with
diagnostics `DIAG` on its error stream but never creates the output
file; the signalled error is the stat failure, which does not include
the captured diagnostics. -/
theorem remux_stat_error_lacks_diagnostics :
    processVideoForFastStart "in.mp4" ⟨true, "", "DIAG", false, 0⟩ =
      Except.error
        "could not stat processed file: stat in.mp4.processing: no such file or directory" ∧
    ¬ List.IsInfix ("DIAG" : String).toList
      ("could not stat processed file: stat in.mp4.processing: no such file or directory" : String).toList :=
  ⟨rfl, by decide⟩

/-- Witness for C8 (amended): a non-zero tool exit yields an error that
embeds the captured diagnostics. -/
theorem remux_postconditions_witness :
    ∃ msg, processVideoForFastStart "a.mp4" ⟨false, "exit status 1", "DIAG", false, 0⟩ =
      Except.error msg ∧
      List.IsInfix ("DIAG" : String).toList msg.toList :=
  (remux_postconditions "a.mp4" ⟨false, "exit status 1", "DIAG", false, 0⟩).2.2 rfl

end Tubely
